import Mathlib

/-!
Shallow embedding of the OAuth2Client library
(`oauth2_client/credentials_manager.py` and `oauth2_client/http_server.py`).

Python dictionaries whose keys and values are strings (query-parameter
mappings, decoded JSON objects of token responses and error bodies) are
modelled as association lists `List (String × String)`; `d.get(k)` becomes
`dget d k`.  Python exceptions become the inductive `PyExc`, and a method
that can raise returns `Except PyExc α`; a method that mutates `self`
returns the new state alongside its `Except` outcome.  The HTTP transport
(`requests`) is an external collaborator: each operation that performs one
HTTP call takes the `Response` that call produced as an argument.
-/

namespace OAuth2Client

/-- A Python value as far as this library observes them: `None`, an `int`,
or a `str`.  Used to model `urlparse(redirect_uri).port`, whose value is
`None` when the URI carries no explicit port and an `int` otherwise. -/
inductive PyVal where
  | vnone : PyVal
  | vint : Int → PyVal
  | vstr : String → PyVal
deriving DecidableEq, Repr

/-- Python `==` on `PyVal`: values of different types (and `None` against
anything else) compare unequal, same-typed values compare structurally. -/
def pyEq : PyVal → PyVal → Bool
  | .vnone, .vnone => true
  | .vint a, .vint b => a == b
  | .vstr a, .vstr b => a == b
  | _, _ => false

/-- Model of `OAuthError(status_code, error, error_description)` from
`credentials_manager.py` lines 15-32.  Both `error` and
`error_description` may be Python `None`, hence `Option String`. -/
structure OAuthError where
  status_code : Nat
  error : Option String
  error_description : Option String
deriving DecidableEq, Repr

/-- The Python exceptions this library can raise or propagate. -/
inductive PyExc where
  | oauthError : OAuthError → PyExc
  | keyError : String → PyExc
  | typeError : String → PyExc
  | valueError : String → PyExc
  | attributeError : String → PyExc
  | jsonDecodeError : PyExc
  | notImplementedError : String → PyExc
  | exn : String → PyExc
deriving DecidableEq, Repr

/-- Python `int(v)`: an `int` passes through, `None` raises `TypeError`,
a string parses or raises `ValueError`. -/
def pyInt : PyVal → Except PyExc Int
  | .vint n => .ok n
  | .vnone => .error (.typeError "int() argument must be a string, not NoneType")
  | .vstr s =>
      match s.toInt? with
      | some n => .ok n
      | none => .error (.valueError "invalid literal for int() with base 10")

/-- Model of `d.get(k)` on a string-to-string Python dict modelled as an
association list: the value of the first matching key, else `None`. -/
def dget (d : List (String × String)) (k : String) : Option String :=
  (d.find? (fun p => p.1 == k)).map (fun p => p.2)

/-- Python `"%s" % v` for an `Optional[str]`: `None` prints as `"None"`. -/
def pyFormatOptStr : Option String → String
  | none => "None"
  | some s => s

/-- A `requests.Response` as observed by this library: its status code,
its raw body text, and the result of JSON-decoding the body (`none` when
the body is not valid JSON, in which case `response.json()` raises). -/
structure Response where
  status_code : Nat
  text : String
  jsonBody : Option (List (String × String))
deriving DecidableEq, Repr

/-- Model of `response.json()`: the decoded object, or a raised
`json.JSONDecodeError` (a `ValueError` subclass) when the body is not
valid JSON. -/
def Response.jsonOrRaise (r : Response) : Except PyExc (List (String × String)) :=
  match r.jsonBody with
  | some obj => .ok obj
  | none => .error .jsonDecodeError

/-- Model of `CredentialManager._handle_bad_response` (lines 138-162), modelled
exactly as written.  The `try` block decodes the body and raises an
`OAuthError` built from its `error`/`error_description` fields; the
`except BaseException` handler then inspects the caught exception: when
it `isinstance(ex, OAuthError)` — i.e. precisely when the JSON decode
SUCCEEDED and the informative `OAuthError` was raised — it replaces it by
`OAuthError(status, "unknown_error", response.text)`; any other exception
(in particular the `JSONDecodeError` from an invalid body) is re-raised
as-is by the bare `raise`. -/
def handle_bad_response (r : Response) : Except PyExc Unit :=
  let tryBlock : Except PyExc Unit :=
    match r.jsonOrRaise with
    | .error ex => .error ex
    | .ok errObj =>
        .error (.oauthError
          { status_code := r.status_code
            error := dget errObj "error"
            error_description := dget errObj "error_description" })
  match tryBlock with
  | .ok u => .ok u
  | .error ex =>
      match ex with
      | .oauthError _ =>
          .error (.oauthError
            { status_code := r.status_code
              error := some "unknown_error"
              error_description := some r.text })
      | other => .error other

/-- The authenticated `requests.Session` held by the manager, reduced to
the one piece of state the library reads and writes: its `Authorization`
header (absent until a non-empty access token is stored). -/
structure SessionState where
  auth_header : Option String
deriving DecidableEq, Repr

/-- Model of `AuthorizationContext` (lines 101-105): the expected `state` token,
the parameter mapping delivered by the callback server so far (empty
while no redirect has arrived), and the handle of the callback server it
started, modelled as an index into the manager's server heap. -/
structure AuthorizationContext where
  state : String
  results : List (String × String)
  server : Nat
deriving DecidableEq, Repr

/-- The mutable state of a `CredentialManager` (lines 108-136), together
with a heap of callback servers (`servers[i] = true` iff server `i` is
still running) so that `stop_http_server` is observable. -/
structure CredentialManager where
  authorization_code_context : Option AuthorizationContext
  refresh_token : Option String
  session : Option SessionState
  servers : List Bool
deriving DecidableEq, Repr

/-- Model of `stop_http_server` (`http_server.py` lines 98-107): `httpd.shutdown()`
marks that server as no longer running. -/
def stop_http_server (servers : List Bool) (h : Nat) : List Bool :=
  servers.set h false

/-- The body of the `try` block of
`wait_and_terminate_authorize_code_process` (lines 233-254): reads
`error`, `error_description` (default `""`), `code` and `state` from the
received parameter mapping, then decides: `error` present → raise
`OAuthError(401, error, error_description)`; received `state` different
from the expected state (a missing received state is Python `None`,
unequal to every string) → raise `OAuthError(500, "invalid_state", …)`;
`code` absent → raise `OAuthError(500, "no_code", …)`; else return the
code.  (The message text reproduces the source's misspelling "Sate".) -/
def wait_decision (results : List (String × String)) (expectedState : String) :
    Except OAuthError String :=
  let error := dget results "error"
  let error_description := (dget results "error_description").getD ""
  let code := dget results "code"
  let state := dget results "state"
  match error with
  | some e =>
      .error { status_code := 401, error := some e,
               error_description := some error_description }
  | none =>
      if state ≠ some expectedState then
        .error { status_code := 500, error := some "invalid_state",
                 error_description := some ("Sate returned does not match: Sent("
                   ++ expectedState ++ ") <> Got(" ++ pyFormatOptStr state ++ ")") }
      else
        match code with
        | none =>
            .error { status_code := 500, error := some "no_code",
                     error_description := some "No code returned" }
        | some c => .ok c

/-- Model of `CredentialManager.wait_and_terminate_authorize_code_process`
(lines 219-257).  With no active context it raises
`Exception("Authorization code not started")`.  Otherwise
`results.wait(timeout)` returns (with the parameters received so far —
still empty if the timeout fired first, since `Event.wait(timeout)`
returns after the timeout whether or not the event was set), the decision
of `wait_decision` is produced, and the `finally` block unconditionally
stops the context's server and clears the context reference. -/
def CredentialManager.wait_and_terminate_authorize_code_process
    (m : CredentialManager) : CredentialManager × Except PyExc String :=
  match m.authorization_code_context with
  | none => (m, .error (.exn "Authorization code not started"))
  | some ctx =>
      ({ m with authorization_code_context := none
                servers := stop_http_server m.servers ctx.server },
       (wait_decision ctx.results ctx.state).mapError .oauthError)

/-- The components of `urlparse(redirect_uri)` that
`init_authorize_code_process` reads.  Per the `urllib.parse` semantics,
`port` is `None` when the URI specifies no explicit port and an `int`
otherwise — never a string. -/
structure ParsedUri where
  scheme : String
  port : PyVal
  hostname : String
deriving DecidableEq, Repr

/-- Model of `CredentialManager.init_authorize_code_process` (lines 190-217) after
`urlparse`: `https` scheme raises `NotImplementedError`; then the port is
chosen by `if uri_parsed.port == "": port = 80 else: port = int(uri_parsed.port)`
— note the literal comparison of the port against the empty STRING, and
the `int(...)` conversion on the else branch.  On success it creates an
`AuthorizationContext(state, port, hostname)` (which starts a fresh
callback server) and stores it; the returned value here is the chosen
port (the source then returns `generate_authorize_url(redirect_uri,
state)`, whose construction no claim depends on). -/
def CredentialManager.init_authorize_code_process (m : CredentialManager)
    (uri : ParsedUri) (state : String) : CredentialManager × Except PyExc Int :=
  if uri.scheme = "https" then
    (m, .error (.notImplementedError "Redirect uri cannot be secured"))
  else
    let portE : Except PyExc Int :=
      if pyEq uri.port (.vstr "") then .ok 80 else pyInt uri.port
    match portE with
    | .error e => (m, .error e)
    | .ok p =>
        ({ m with authorization_code_context :=
                    some { state := state, results := [], server := m.servers.length }
                  servers := m.servers ++ [true] },
         .ok p)

/-- The `_access_token` property setter (lines 432-440): when no session
exists a fresh `requests.Session` (with no `Authorization` header) is
created; then, when the token string is non-empty, the session's
`Authorization` header is set to `Bearer <token>`. -/
def set_access_token (sess : Option SessionState) (tok : String) : Option SessionState :=
  let s := sess.getD { auth_header := none }
  if tok.length > 0 then some { s with auth_header := some ("Bearer " ++ tok) }
  else some s

/-- Model of `CredentialManager._process_token_response` (lines 397-413), with the
source's mutation order: first `self.refresh_token` is assigned —
`token_response["refresh_token"]` (a `KeyError` when absent) when the
refresh token is mandatory, `token_response.get("refresh_token")`
(possibly `None`) otherwise — and only then
`self._access_token = token_response["access_token"]` (a `KeyError` when
absent, leaving the already-updated refresh token in place). -/
def process_token_response (m : CredentialManager)
    (token_response : List (String × String)) (refresh_token_mandatory : Bool) :
    CredentialManager × Except PyExc Unit :=
  let rtE : Except PyExc (Option String) :=
    if refresh_token_mandatory then
      match dget token_response "refresh_token" with
      | some v => .ok (some v)
      | none => .error (.keyError "refresh_token")
    else .ok (dget token_response "refresh_token")
  match rtE with
  | .error e => (m, .error e)
  | .ok newRT =>
      let m1 := { m with refresh_token := newRT }
      match dget token_response "access_token" with
      | none => (m1, .error (.keyError "access_token"))
      | some tok => ({ m1 with session := set_access_token m1.session tok }, .ok ())

/-- Model of `CredentialManager._token_request` (lines 371-395), with the POST to
the token endpoint abstracted into its `Response` argument: a non-200
status is handed to `_handle_bad_response` (whose raised exception
propagates and the manager state is untouched); a 200 response is
JSON-decoded (`response.json()` raises on an invalid body) and handed to
`_process_token_response`. -/
def token_request (m : CredentialManager) (r : Response)
    (refresh_token_mandatory : Bool) : CredentialManager × Except PyExc Unit :=
  if r.status_code ≠ 200 then
    (m, match handle_bad_response r with
        | .error e => .error e
        | .ok _ => .ok ())
  else
    match r.jsonOrRaise with
    | .error e => (m, .error e)
    | .ok obj => process_token_response m obj refresh_token_mandatory

/-- Model of `init_with_authorize_code` (lines 259-266): posts the
authorization-code grant body and requires a refresh token in the
response (`refresh_token_mandatory = True`). -/
def CredentialManager.init_with_authorize_code (m : CredentialManager)
    (r : Response) : CredentialManager × Except PyExc Unit :=
  token_request m r true

/-- Model of `init_with_user_credentials` (lines 268-277): posts the password
grant body, refresh token mandatory (`True`). -/
def CredentialManager.init_with_user_credentials (m : CredentialManager)
    (r : Response) : CredentialManager × Except PyExc Unit :=
  token_request m r true

/-- Model of `init_with_client_credentials` (lines 279-283): posts the
client-credentials grant body, refresh token optional (`False`). -/
def CredentialManager.init_with_client_credentials (m : CredentialManager)
    (r : Response) : CredentialManager × Except PyExc Unit :=
  token_request m r false

/-- Model of `init_with_token` (lines 285-294): posts the refresh-token grant body
with refresh token optional (`False`); afterwards, when the processed
response left `self.refresh_token` unset, it is restored to the refresh
token that was passed in.  A raising `_token_request` skips the restore. -/
def CredentialManager.init_with_token (m : CredentialManager)
    (rt : String) (r : Response) : CredentialManager × Except PyExc Unit :=
  match token_request m r false with
  | (m1, .error e) => (m1, .error e)
  | (m1, .ok _) =>
      if m1.refresh_token = none then ({ m1 with refresh_token := some rt }, .ok ())
      else (m1, .ok ())

/-- Model of `CredentialManager._refresh_token` (lines 357-369): runs a
refresh-token grant (`refresh_token_mandatory = False`); when it raises
an `OAuthError` with status 401 both the session and the stored refresh
token are cleared before re-raising; any other exception propagates
untouched.  Unlike `init_with_token`, nothing restores the previous
refresh token when the 200 response omits one. -/
def CredentialManager.refresh_token_op (m : CredentialManager)
    (r : Response) : CredentialManager × Except PyExc Unit :=
  match token_request m r false with
  | (m1, .ok u) => (m1, .ok u)
  | (m1, .error e) =>
      match e with
      | .oauthError oe =>
          if oe.status_code = 401 then
            ({ m1 with session := none, refresh_token := none }, .error e)
          else (m1, .error e)
      | other => (m1, .error other)

/-- Model of `CredentialManager._get_session` (lines 529-537): raises
`OAuthError(401, "no_token", "no token provided")` when no session
exists.  This method is never called by `_bearer_request` (dead code in
the source). -/
def get_session (sess : Option SessionState) : Except PyExc SessionState :=
  match sess with
  | none => .error (.oauthError
      { status_code := 401, error := some "no_token",
        error_description := some "no token provided" })
  | some s => .ok s

/-- Model of `CredentialManager._is_token_expired` (lines 563-580): true exactly
when the status is 401 and the body decodes as JSON whose `error` field
equals `"invalid_token"`; a `ValueError` from `response.json()` yields
`False`. -/
def is_token_expired (r : Response) : Bool :=
  if r.status_code = 401 then
    match r.jsonBody with
    | some obj => dget obj "error" == some "invalid_token"
    | none => false
  else false

/-- The outcome of one `_bearer_request` call: the response returned to
the caller (or the exception raised), with counters for how many silent
refreshes and how many retries of the original request were performed. -/
structure BearerOutcome where
  result : Except PyExc Response
  refresh_calls : Nat
  retries : Nat
deriving Repr

instance {ε α : Type} [DecidableEq ε] [DecidableEq α] : DecidableEq (Except ε α) := by
  intro a b
  cases a <;> cases b
  case error.error x y =>
    exact decidable_of_iff (x = y) (by simp)
  case ok.ok x y =>
    exact decidable_of_iff (x = y) (by simp)
  all_goals exact isFalse (by intro h; cases h)

instance : DecidableEq BearerOutcome := by
  intro a b
  cases a
  cases b
  exact decidable_of_iff _ (iff_of_eq (BearerOutcome.mk.injEq _ _ _ _ _ _)).symm

/-- Model of `CredentialManager._bearer_request` (lines 539-561).  The two HTTP
calls it can make are abstracted into `first` (the original request's
response) and `second` (the retried request's response), and the effect
of `self._refresh_token()` into `refreshOutcome`.  The source reads
`self._session.request(...)` directly, so with no session the attribute
access on `None` raises `AttributeError` (it does not call
`_get_session`).  When a refresh token is known and `_is_token_expired`
holds on `first`, it refreshes once (a raising refresh propagates) and
returns the retry's response unconditionally; otherwise it returns
`first` as-is. -/
def bearer_request (sess : Option SessionState) (rt : Option String)
    (first second : Response) (refreshOutcome : Except PyExc Unit) : BearerOutcome :=
  match sess with
  | none =>
      { result := .error (.attributeError "NoneType object has no attribute request")
        refresh_calls := 0, retries := 0 }
  | some _ =>
      if rt.isSome && is_token_expired first then
        match refreshOutcome with
        | .error e => { result := .error e, refresh_calls := 1, retries := 0 }
        | .ok _ => { result := .ok second, refresh_calls := 1, retries := 1 }
      else { result := .ok first, refresh_calls := 0, retries := 0 }

/-- Model of `CredentialManager.get` (lines 442-455): sets `kwargs["params"]` and
delegates to `_bearer_request` with method `"GET"`. -/
def CredentialManager.get (sess : Option SessionState) (rt : Option String)
    (first second : Response) (refreshOutcome : Except PyExc Unit) : BearerOutcome :=
  bearer_request sess rt first second refreshOutcome

/-- Model of `CredentialManager.post` (lines 457-475): sets `kwargs["data"]` and
`kwargs["json"]` and delegates to `_bearer_request` with method `"POST"`. -/
def CredentialManager.post (sess : Option SessionState) (rt : Option String)
    (first second : Response) (refreshOutcome : Except PyExc Unit) : BearerOutcome :=
  bearer_request sess rt first second refreshOutcome

/-- Model of `CredentialManager.put` (lines 477-495): delegates to
`_bearer_request` with method `"PUT"`. -/
def CredentialManager.put (sess : Option SessionState) (rt : Option String)
    (first second : Response) (refreshOutcome : Except PyExc Unit) : BearerOutcome :=
  bearer_request sess rt first second refreshOutcome

/-- Model of `CredentialManager.patch` (lines 497-515): delegates to
`_bearer_request` with method `"PATCH"`. -/
def CredentialManager.patch (sess : Option SessionState) (rt : Option String)
    (first second : Response) (refreshOutcome : Except PyExc Unit) : BearerOutcome :=
  bearer_request sess rt first second refreshOutcome

/-- Model of `CredentialManager.delete` (lines 517-527): delegates to
`_bearer_request` with method `"DELETE"`. -/
def CredentialManager.delete (sess : Option SessionState) (rt : Option String)
    (first second : Response) (refreshOutcome : Except PyExc Unit) : BearerOutcome :=
  bearer_request sess rt first second refreshOutcome

theorem stop_http_server_get (l : List Bool) (i : Nat) (h : i < l.length) :
    (stop_http_server l i)[i]? = some false :=
  List.getElem?_set_eq_of_lt false h

/-- C1: with an active authorization context, the wait operation decides
its outcome over the received redirect parameters in exactly this
priority order: an `error` parameter present raises
`OAuthError(401, error, error_description)`; else a received `state`
different from the expected state raises
`OAuthError(500, "invalid_state", …)`; else an absent `code` parameter
raises `OAuthError(500, "no_code", …)`; else the received code is
returned exactly. -/
theorem C1_wait_outcome_priority (m : CredentialManager)
    (ctx : AuthorizationContext)
    (hctx : m.authorization_code_context = some ctx) :
    (∀ e, dget ctx.results "error" = some e →
      m.wait_and_terminate_authorize_code_process.2 =
        .error (.oauthError
          { status_code := 401, error := some e,
            error_description := some ((dget ctx.results "error_description").getD "") })) ∧
    (dget ctx.results "error" = none → dget ctx.results "state" ≠ some ctx.state →
      ∃ d, m.wait_and_terminate_authorize_code_process.2 =
        .error (.oauthError
          { status_code := 500, error := some "invalid_state",
            error_description := d })) ∧
    (dget ctx.results "error" = none → dget ctx.results "state" = some ctx.state →
      dget ctx.results "code" = none →
      ∃ d, m.wait_and_terminate_authorize_code_process.2 =
        .error (.oauthError
          { status_code := 500, error := some "no_code",
            error_description := d })) ∧
    (∀ c, dget ctx.results "error" = none → dget ctx.results "state" = some ctx.state →
      dget ctx.results "code" = some c →
      m.wait_and_terminate_authorize_code_process.2 = .ok c) := by
  unfold CredentialManager.wait_and_terminate_authorize_code_process
  rw [hctx]
  refine ⟨?_, ?_, ?_, ?_⟩
  · intro e he
    simp [wait_decision, he, Except.mapError]
  · intro he hs
    refine ⟨some ("Sate returned does not match: Sent(" ++ ctx.state ++ ") <> Got("
      ++ pyFormatOptStr (dget ctx.results "state") ++ ")"), ?_⟩
    simp [wait_decision, he, hs, Except.mapError]
  · intro he hs hc
    refine ⟨some "No code returned", ?_⟩
    simp [wait_decision, he, hs, hc, Except.mapError]
  · intro c he hs hc
    simp [wait_decision, he, hs, hc, Except.mapError]

/-- C1 witness: a context expecting state `"S"` that received
`state=S&code=C` yields exactly `"C"`. -/
theorem C1_wait_outcome_priority_witness :
    (CredentialManager.wait_and_terminate_authorize_code_process
      { authorization_code_context :=
          some { state := "S", results := [("state", "S"), ("code", "C")], server := 0 },
        refresh_token := none, session := none, servers := [true] }).2 = .ok "C" :=
  (C1_wait_outcome_priority
    { authorization_code_context :=
        some { state := "S", results := [("state", "S"), ("code", "C")], server := 0 },
      refresh_token := none, session := none, servers := [true] }
    { state := "S", results := [("state", "S"), ("code", "C")], server := 0 }
    rfl).2.2.2 "C" (by decide) (by decide) (by decide)

/-- C3: after every call of the wait operation on a manager with an
active authorization context — whatever the outcome — the context's
callback server has been stopped and the context reference is cleared to
`None`; a second wait call without a new `init_authorize_code_process`
raises `Exception("Authorization code not started")`. -/
theorem C3_wait_always_cleans_up (m : CredentialManager)
    (ctx : AuthorizationContext)
    (hctx : m.authorization_code_context = some ctx)
    (hsrv : ctx.server < m.servers.length) :
    m.wait_and_terminate_authorize_code_process.1.authorization_code_context = none ∧
    (m.wait_and_terminate_authorize_code_process.1.servers)[ctx.server]? = some false ∧
    m.wait_and_terminate_authorize_code_process.1.wait_and_terminate_authorize_code_process.2 =
      .error (.exn "Authorization code not started") := by
  unfold CredentialManager.wait_and_terminate_authorize_code_process
  rw [hctx]
  exact ⟨rfl, stop_http_server_get m.servers ctx.server hsrv, rfl⟩

/-- C3 witness: concrete manager with one running server; after the wait
call the context is gone, the server stopped, and a second wait raises. -/
theorem C3_wait_always_cleans_up_witness :
    (CredentialManager.wait_and_terminate_authorize_code_process
      { authorization_code_context :=
          some { state := "S", results := [("state", "S"), ("code", "C")], server := 0 },
        refresh_token := none, session := none,
        servers := [true] }).1.authorization_code_context = none :=
  (C3_wait_always_cleans_up
    { authorization_code_context :=
        some { state := "S", results := [("state", "S"), ("code", "C")], server := 0 },
      refresh_token := none, session := none, servers := [true] }
    { state := "S", results := [("state", "S"), ("code", "C")], server := 0 }
    rfl (by decide)).1

/-- C10 counterexample: when the timeout fires before any redirect data
arrived the parameter mapping is still empty, and the wait operation
does NOT block without producing a result — `Event.wait(timeout)`
returns after the timeout, and the operation then raises
`OAuthError(500, "invalid_state", …)` (the absent received state is
`None`, unequal to the expected state). -/
theorem C10_counterexample :
    (CredentialManager.wait_and_terminate_authorize_code_process
      { authorization_code_context := some { state := "xyz", results := [], server := 0 },
        refresh_token := none, session := none, servers := [true] }).2 =
      .error (.oauthError
        { status_code := 500, error := some "invalid_state",
          error_description :=
            some "Sate returned does not match: Sent(xyz) <> Got(None)" }) := by
  decide

/-- C10 amended: if the timeout elapses before any redirect data arrived
(the parameter mapping still empty), the wait operation returns from the
blocking wait and raises `OAuthError` with status 500 and error
`"invalid_state"` (the missing received state never equals the expected
state); as always, the server is stopped and the context cleared. -/
theorem C10_timeout_raises_invalid_state (m : CredentialManager)
    (ctx : AuthorizationContext)
    (hctx : m.authorization_code_context = some ctx)
    (hres : ctx.results = []) :
    m.wait_and_terminate_authorize_code_process.2 =
      .error (.oauthError
        { status_code := 500, error := some "invalid_state",
          error_description := some ("Sate returned does not match: Sent("
            ++ ctx.state ++ ") <> Got(" ++ "None" ++ ")") }) ∧
    m.wait_and_terminate_authorize_code_process.1.authorization_code_context = none := by
  unfold CredentialManager.wait_and_terminate_authorize_code_process
  rw [hctx]
  refine ⟨?_, rfl⟩
  simp [wait_decision, hres, dget, pyFormatOptStr, Except.mapError]

/-- C10 witness: concrete manager whose context received nothing. -/
theorem C10_timeout_raises_invalid_state_witness :
    (CredentialManager.wait_and_terminate_authorize_code_process
      { authorization_code_context := some { state := "abc", results := [], server := 0 },
        refresh_token := none, session := none, servers := [true] }).2 =
      .error (.oauthError
        { status_code := 500, error := some "invalid_state",
          error_description :=
            some "Sate returned does not match: Sent(abc) <> Got(None)" }) :=
  ((C10_timeout_raises_invalid_state
    { authorization_code_context := some { state := "abc", results := [], server := 0 },
      refresh_token := none, session := none, servers := [true] }
    { state := "abc", results := [], server := 0 }
    rfl rfl).1).trans (by decide)

/-- C2 (code bug): on a non-200 response WITH a valid JSON error body the
bad-response handler discards the body's `error`/`error_description`
fields and raises `OAuthError(status, "unknown_error", rawBodyText)`,
while on a body that is NOT valid JSON the `JSONDecodeError` itself
propagates to the caller — the opposite of the claimed behaviour, caused
by the handler's `isinstance(ex, OAuthError)` test selecting the wrong
branch (its own log message, "error while getting error as json", fires
exactly when decoding succeeded). -/
theorem C2_handler_inverts_json_cases :
    handle_bad_response
      { status_code := 400, text := "raw body text",
        jsonBody := some [("error", "invalid_grant"), ("error_description", "bad code")] } =
      .error (.oauthError
        { status_code := 400, error := some "unknown_error",
          error_description := some "raw body text" }) ∧
    handle_bad_response
      { status_code := 400, text := "not json at all", jsonBody := none } =
      .error .jsonDecodeError := by
  decide

/-- C8 (code bug): with no authenticated session, every HTTP verb
wrapper reaches `self._session.request(...)` on a `None` session and
raises `AttributeError` — not `OAuthError(401, "no_token", …)`.  The
`_get_session` method that would raise that `OAuthError` exists but is
never called by `_bearer_request`. -/
theorem C8_no_session_raises_attribute_error :
    (CredentialManager.get Option.none Option.none
        { status_code := 200, text := "", jsonBody := none }
        { status_code := 200, text := "", jsonBody := none } (.ok ())).result =
      .error (.attributeError "NoneType object has no attribute request") ∧
    (CredentialManager.post Option.none Option.none
        { status_code := 200, text := "", jsonBody := none }
        { status_code := 200, text := "", jsonBody := none } (.ok ())).result =
      .error (.attributeError "NoneType object has no attribute request") ∧
    (CredentialManager.put Option.none Option.none
        { status_code := 200, text := "", jsonBody := none }
        { status_code := 200, text := "", jsonBody := none } (.ok ())).result =
      .error (.attributeError "NoneType object has no attribute request") ∧
    (CredentialManager.patch Option.none Option.none
        { status_code := 200, text := "", jsonBody := none }
        { status_code := 200, text := "", jsonBody := none } (.ok ())).result =
      .error (.attributeError "NoneType object has no attribute request") ∧
    (CredentialManager.delete Option.none Option.none
        { status_code := 200, text := "", jsonBody := none }
        { status_code := 200, text := "", jsonBody := none } (.ok ())).result =
      .error (.attributeError "NoneType object has no attribute request") ∧
    get_session Option.none =
      .error (.oauthError
        { status_code := 401, error := some "no_token",
          error_description := some "no token provided" }) := by
  decide

/-- C9 (code bug): for a non-https redirect URI with no explicit port,
`urlparse(...).port` is Python `None`, the source's test
`uri_parsed.port == ""` is false (`None` never equals a string), and the
else branch evaluates `int(None)`, raising `TypeError` — the port is
never defaulted to 80.  With an explicit port the process starts
normally and uses that port. -/
theorem C9_missing_port_raises_type_error :
    (CredentialManager.init_authorize_code_process
      { authorization_code_context := none, refresh_token := none,
        session := none, servers := [] }
      { scheme := "http", port := .vnone, hostname := "localhost" } "xyz").2 =
      .error (.typeError "int() argument must be a string, not NoneType") ∧
    (CredentialManager.init_authorize_code_process
      { authorization_code_context := none, refresh_token := none,
        session := none, servers := [] }
      { scheme := "http", port := .vint 8080, hostname := "localhost" } "xyz").2 =
      .ok 8080 ∧
    pyEq .vnone (.vstr "") = false := by
  decide

theorem process_token_response_not_oauth (m : CredentialManager)
    (obj : List (String × String)) (mand : Bool) (oe : OAuthError) :
    (process_token_response m obj mand).2 ≠ .error (.oauthError oe) := by
  unfold process_token_response
  rcases mand with _ | _ <;>
    rcases hrt : dget obj "refresh_token" with _ | v <;>
      rcases hat : dget obj "access_token" with _ | tok <;>
        simp [hrt, hat]

theorem token_request_state_on_oauth_error (m : CredentialManager) (r : Response)
    (mand : Bool) (oe : OAuthError)
    (h : (token_request m r mand).2 = .error (.oauthError oe)) :
    (token_request m r mand).1 = m ∧ oe.status_code = r.status_code := by
  unfold token_request at h ⊢
  by_cases h200 : r.status_code = 200
  · simp [h200] at h ⊢
    rcases hj : r.jsonBody with _ | obj
    · simp [Response.jsonOrRaise, hj] at h
    · simp only [Response.jsonOrRaise, hj] at h
      exact absurd h (process_token_response_not_oauth m obj mand oe)
  · rw [if_pos h200] at h ⊢
    refine ⟨rfl, ?_⟩
    rcases hj : r.jsonBody with _ | obj
    · simp [handle_bad_response, Response.jsonOrRaise, hj] at h
    · simp [handle_bad_response, Response.jsonOrRaise, hj] at h
      rw [← h]

/-- C5: when a silent refresh fails with an `OAuthError` whose status is
401, afterwards both the session (access token) and the stored refresh
token are cleared and the error is re-raised; when it fails with an
`OAuthError` of any other status, the error propagates and the manager's
state is left entirely unchanged. -/
theorem C5_refresh_401_clears_tokens (m : CredentialManager) (r : Response)
    (oe : OAuthError)
    (herr : (m.refresh_token_op r).2 = .error (.oauthError oe)) :
    (oe.status_code = 401 →
      (m.refresh_token_op r).1.session = none ∧
      (m.refresh_token_op r).1.refresh_token = none) ∧
    (oe.status_code ≠ 401 →
      (m.refresh_token_op r).1 = m) := by
  unfold CredentialManager.refresh_token_op at herr ⊢
  revert herr
  rcases htr : token_request m r false with ⟨m1, res⟩
  intro herr
  rcases res with e | u
  case error =>
    cases e
    case oauthError oe' =>
      by_cases h401 : oe'.status_code = 401
      · simp [h401] at herr ⊢
        subst herr
        exact fun hne => absurd h401 hne
      · simp [h401] at herr ⊢
        subst herr
        have hh := token_request_state_on_oauth_error m r false oe' (by rw [htr])
        rw [htr] at hh
        exact ⟨fun h => absurd h h401, fun _ => hh.1⟩
    all_goals simp at herr
  case ok => simp at herr

/-- C5 witness: a refresh whose token-endpoint response is a 401 (with
an empty JSON body, so the handler produces an `OAuthError` carrying
status 401) leaves both the session and the refresh token cleared. -/
theorem C5_refresh_401_clears_tokens_witness :
    (CredentialManager.refresh_token_op
        { authorization_code_context := none, refresh_token := some "rt0",
          session := some { auth_header := some "Bearer t0" }, servers := [] }
        { status_code := 401, text := "unauthorized", jsonBody := some [] }).1.session
        = none ∧
    (CredentialManager.refresh_token_op
        { authorization_code_context := none, refresh_token := some "rt0",
          session := some { auth_header := some "Bearer t0" }, servers := [] }
        { status_code := 401, text := "unauthorized", jsonBody := some [] }).1.refresh_token
        = none :=
  (C5_refresh_401_clears_tokens
    { authorization_code_context := none, refresh_token := some "rt0",
      session := some { auth_header := some "Bearer t0" }, servers := [] }
    { status_code := 401, text := "unauthorized", jsonBody := some [] }
    { status_code := 401, error := some "unknown_error",
      error_description := some "unauthorized" }
    (by decide)).1 rfl

/-- C4: on a manager with an authenticated session and a known refresh
token, a bearer request whose first response is a 401 with JSON body
whose `error` equals `"invalid_token"` performs exactly one silent
refresh and exactly one retry and returns the retry's response as-is
(whatever its status — a second 401 included); any first response not of
that shape (other statuses, non-JSON 401 bodies, or a different `error`
value) is returned as-is with no refresh and no retry.  All five HTTP
verb wrappers delegate to the same `bearer_request`. -/
theorem C4_retry_exactly_once (sess : SessionState) (rt : String)
    (first second : Response) (refreshOutcome : Except PyExc Unit) :
    (is_token_expired first = true → refreshOutcome = .ok () →
      bearer_request (some sess) (some rt) first second refreshOutcome =
        { result := .ok second, refresh_calls := 1, retries := 1 }) ∧
    (is_token_expired first = false →
      bearer_request (some sess) (some rt) first second refreshOutcome =
        { result := .ok first, refresh_calls := 0, retries := 0 }) ∧
    (is_token_expired first = true ↔
      (first.status_code = 401 ∧ ∃ obj, first.jsonBody = some obj ∧
        dget obj "error" = some "invalid_token")) ∧
    (CredentialManager.get (some sess) (some rt) first second refreshOutcome =
        bearer_request (some sess) (some rt) first second refreshOutcome ∧
      CredentialManager.post (some sess) (some rt) first second refreshOutcome =
        bearer_request (some sess) (some rt) first second refreshOutcome ∧
      CredentialManager.put (some sess) (some rt) first second refreshOutcome =
        bearer_request (some sess) (some rt) first second refreshOutcome ∧
      CredentialManager.patch (some sess) (some rt) first second refreshOutcome =
        bearer_request (some sess) (some rt) first second refreshOutcome ∧
      CredentialManager.delete (some sess) (some rt) first second refreshOutcome =
        bearer_request (some sess) (some rt) first second refreshOutcome) := by
  refine ⟨?_, ?_, ?_, rfl, rfl, rfl, rfl, rfl⟩
  · intro hexp hok
    simp [bearer_request, hexp, hok]
  · intro hexp
    simp [bearer_request, hexp]
  · unfold is_token_expired
    by_cases h401 : first.status_code = 401
    · rcases hj : first.jsonBody with _ | obj
      · simp [h401, hj]
      · simp [h401, hj]
    · simp [h401]

/-- C4 witness: first response 401 with `error=invalid_token`, retry
response another 401 — one refresh, one retry, second response returned. -/
theorem C4_retry_exactly_once_witness :
    bearer_request (some { auth_header := some "Bearer t0" }) (some "rt0")
        { status_code := 401, text := "e1",
          jsonBody := some [("error", "invalid_token")] }
        { status_code := 401, text := "e2",
          jsonBody := some [("error", "invalid_token")] } (.ok ()) =
      { result := .ok { status_code := 401, text := "e2",
                        jsonBody := some [("error", "invalid_token")] },
        refresh_calls := 1, retries := 1 } :=
  (C4_retry_exactly_once { auth_header := some "Bearer t0" } "rt0"
    { status_code := 401, text := "e1", jsonBody := some [("error", "invalid_token")] }
    { status_code := 401, text := "e2", jsonBody := some [("error", "invalid_token")] }
    (.ok ())).1 (by decide) rfl

/-- C6 counterexample: a silent refresh (manager holding refresh token
`"rt0"`) whose 200 token response carries only an `access_token` — the
previously known refresh token is NOT retained: the stored refresh token
is overwritten with `None`. -/
theorem C6_counterexample :
    (CredentialManager.refresh_token_op
        { authorization_code_context := none, refresh_token := some "rt0",
          session := some { auth_header := some "Bearer old" }, servers := [] }
        { status_code := 200, text := "body",
          jsonBody := some [("access_token", "at2")] }).1.refresh_token = none ∧
    (CredentialManager.refresh_token_op
        { authorization_code_context := none, refresh_token := some "rt0",
          session := some { auth_header := some "Bearer old" }, servers := [] }
        { status_code := 200, text := "body",
          jsonBody := some [("access_token", "at2")] }).2 = .ok () := by
  decide

/-- C6 amended: for the explicit `init_with_token` entry point a 200
response omitting `refresh_token` leaves the stored refresh token equal
to the token that was passed in (the post-call restore); for the
internal silent refresh the same response clears the stored refresh
token to `None` — it is not retained. -/
theorem C6_refresh_token_carry_forward (m : CredentialManager) (rt tok : String)
    (r : Response) (obj : List (String × String))
    (h200 : r.status_code = 200) (hjson : r.jsonBody = some obj)
    (hnort : dget obj "refresh_token" = none)
    (hat : dget obj "access_token" = some tok) :
    (m.init_with_token rt r).1.refresh_token = some rt ∧
    (m.init_with_token rt r).2 = .ok () ∧
    (m.refresh_token_op r).1.refresh_token = none ∧
    (m.refresh_token_op r).2 = .ok () := by
  have htr : token_request m r false =
      ({ m with refresh_token := none,
                session := set_access_token m.session tok }, .ok ()) := by
    unfold token_request process_token_response
    simp [h200, Response.jsonOrRaise, hjson, hnort, hat]
  refine ⟨?_, ?_, ?_, ?_⟩ <;>
    simp [CredentialManager.init_with_token, CredentialManager.refresh_token_op, htr]

/-- C6 amended witness: concrete manager holding refresh token `"rt0"`;
`init_with_token "rtX"` keeps `"rtX"`, the silent refresh ends with no
refresh token. -/
theorem C6_refresh_token_carry_forward_witness :
    (CredentialManager.init_with_token
        { authorization_code_context := none, refresh_token := some "rt0",
          session := some { auth_header := some "Bearer old" }, servers := [] }
        "rtX"
        { status_code := 200, text := "body",
          jsonBody := some [("access_token", "at2")] }).1.refresh_token = some "rtX" :=
  (C6_refresh_token_carry_forward
    { authorization_code_context := none, refresh_token := some "rt0",
      session := some { auth_header := some "Bearer old" }, servers := [] }
    "rtX" "at2"
    { status_code := 200, text := "body", jsonBody := some [("access_token", "at2")] }
    [("access_token", "at2")] rfl rfl (by decide) (by decide)).1

/-- C7: processing a 200 token response requires `refresh_token` only
for the authorization-code and password grants: a client-credentials
grant whose response lacks it completes without error and leaves the
stored refresh token unset, while the authorization-code and password
grants raise a `KeyError` on the missing field; and in every case a
response lacking `access_token` fails. -/
theorem C7_refresh_token_mandatory_per_grant (m : CredentialManager) (tok : String)
    (r : Response) (obj : List (String × String))
    (h200 : r.status_code = 200) (hjson : r.jsonBody = some obj)
    (hnort : dget obj "refresh_token" = none)
    (hat : dget obj "access_token" = some tok) :
    ((m.init_with_client_credentials r).2 = .ok () ∧
      (m.init_with_client_credentials r).1.refresh_token = none) ∧
    (m.init_with_authorize_code r).2 = .error (.keyError "refresh_token") ∧
    (m.init_with_user_credentials r).2 = .error (.keyError "refresh_token") ∧
    (∀ (m' : CredentialManager) (obj' : List (String × String)) (mand : Bool),
      dget obj' "access_token" = none →
      ∃ e, (process_token_response m' obj' mand).2 = .error e) := by
  refine ⟨⟨?_, ?_⟩, ?_, ?_, ?_⟩
  · unfold CredentialManager.init_with_client_credentials token_request
      process_token_response
    simp [h200, Response.jsonOrRaise, hjson, hnort, hat]
  · unfold CredentialManager.init_with_client_credentials token_request
      process_token_response
    simp [h200, Response.jsonOrRaise, hjson, hnort, hat]
  · unfold CredentialManager.init_with_authorize_code token_request
      process_token_response
    simp [h200, Response.jsonOrRaise, hjson, hnort]
  · unfold CredentialManager.init_with_user_credentials token_request
      process_token_response
    simp [h200, Response.jsonOrRaise, hjson, hnort]
  · intro m' obj' mand hat'
    unfold process_token_response
    rcases mand with _ | _ <;>
      rcases hrt : dget obj' "refresh_token" with _ | v <;>
        simp [hrt, hat']

/-- C7 witness: a 200 response with only an `access_token` — the
client-credentials grant succeeds with no stored refresh token, the
authorization-code grant raises `KeyError("refresh_token")`. -/
theorem C7_refresh_token_mandatory_per_grant_witness :
    (CredentialManager.init_with_authorize_code
        { authorization_code_context := none, refresh_token := none,
          session := none, servers := [] }
        { status_code := 200, text := "body",
          jsonBody := some [("access_token", "at1")] }).2 =
      .error (.keyError "refresh_token") :=
  (C7_refresh_token_mandatory_per_grant
    { authorization_code_context := none, refresh_token := none,
      session := none, servers := [] }
    "at1"
    { status_code := 200, text := "body", jsonBody := some [("access_token", "at1")] }
    [("access_token", "at1")] rfl rfl (by decide) (by decide)).2.1

end OAuth2Client
